import Mathlib

/- Shallow embedding of the COPHS suppository-base calculator.

   Two source files are embedded:
   - src/suppository_calculator.py (enhanced variant) → namespace Supp
   - src/suppository_calculator_5step.py (5-step variant) → namespace FiveStep

   Python floats are modelled as exact rationals (ℚ); Streamlit widget
   values become function arguments; st.error followed by st.stop becomes
   Except.error; a displayed st.error that does not stop becomes a Bool
   flag in the result record. -/

/-- Decidable equality for Except values, so that concrete runs of the
embedded calculator can be checked by decide. -/
instance {e a : Type} [DecidableEq e] [DecidableEq a] : DecidableEq (Except e a) := fun x y =>
  match x, y with
  | Except.ok u, Except.ok v => decidable_of_iff (u = v) (by simp)
  | Except.error u, Except.error v => decidable_of_iff (u = v) (by simp)
  | Except.ok _, Except.error _ => isFalse (by simp)
  | Except.error _, Except.ok _ => isFalse (by simp)

namespace Supp

/-- API entry mode radio button (suppository_calculator.py line 63):
"Density (ρ)" or "Displacement Factor (DF)". -/
inductive ApiMode where
  | density : ApiMode
  | df : ApiMode
  deriving DecidableEq

/-- One row of the Active Ingredients grid (suppository_calculator.py
line 106): name, normalized amount in grams, and exactly one of
rho / df set depending on the mode. -/
structure APIEntry where
  name : String
  amt_g : ℚ
  rho : Option ℚ
  df : Option ℚ
  deriving DecidableEq

/-- Unit normalization (suppository_calculator.py line 105):
amt_g = amt_value/1000.0 if unit == "mg" else amt_value. -/
def amt_g_of (amt_value : ℚ) (unit : String) : ℚ :=
  if unit = "mg" then amt_value / 1000 else amt_value

/-- The batch inputs collected by the sidebar form. -/
structure BatchInputs where
  N : ℕ
  blank_unit_weight_g : ℚ
  base_density : ℚ
  api_mode : ApiMode
  apis : List APIEntry
  overage_pct : ℚ
  round_step : String
  deriving DecidableEq

/-- Density-mode displacement loop (suppository_calculator.py lines
132-140): for each entry, error and stop unless rho is present and > 0,
else accumulate amt_g / (rho / base_density). -/
def displacedDensityAux : List APIEntry → ℚ → Except String ℚ
  | [], _ => Except.ok 0
  | a :: rest, bd =>
    match a.rho with
    | none => Except.error (a.name ++ (": API density must be > 0."))
    | some r =>
      if r ≤ 0 then Except.error (a.name ++ (": API density must be > 0."))
      else
        match displacedDensityAux rest bd with
        | Except.error e => Except.error e
        | Except.ok s => Except.ok (a.amt_g / (r / bd) + s)

/-- DF-mode displacement loop (suppository_calculator.py lines 141-147):
for each entry, error and stop unless df is present and > 0, else
accumulate amt_g / df. -/
def displacedDFAux : List APIEntry → Except String ℚ
  | [] => Except.ok 0
  | a :: rest =>
    match a.df with
    | none => Except.error (a.name ++ (": DF must be > 0."))
    | some d =>
      if d ≤ 0 then Except.error (a.name ++ (": DF must be > 0."))
      else
        match displacedDFAux rest with
        | Except.error e => Except.error e
        | Except.ok s => Except.ok (a.amt_g / d + s)

/-- Steps 3-4 dispatch on the mode (suppository_calculator.py line 132). -/
def displacedOf (inp : BatchInputs) : Except String ℚ :=
  match inp.api_mode with
  | ApiMode.density => displacedDensityAux inp.apis inp.base_density
  | ApiMode.df => displacedDFAux inp.apis

/-- Absolute value as Python's abs builtin (suppository_calculator.py
line 210). -/
def rabs (x : ℚ) : ℚ := if x < 0 then -x else x

/-- Round-half-away-from-zero to an integer. Part of the model of the
undefined round_to helper; see round_to. -/
def roundHalfAway (q : ℚ) : ℤ :=
  if 0 ≤ q then ⌊q + 1/2⌋ else ⌈q - 1/2⌉

/-- The rounding selectbox choices (suppository_calculator.py line 111)
mapped to a step in grams; "none" and anything else means no rounding. -/
def stepOf : String → Option ℚ
  | "0.001 g" => some (1/1000)
  | "0.01 g" => some (1/100)
  | "0.1 g" => some (1/10)
  | _ => none

/-- Modelled from the spec: suppository_calculator.py line 158 calls
round_to(required_base_batch, round_step) but round_to is defined nowhere
under src/. Spec section 4.2 step 5: if rounding_step_g is set, round to
the nearest multiple of that step, tie-break round-half-to-even or
round-half-away-from-zero (either acceptable); round-half-away-from-zero
is chosen here. Absence of a step means no rounding. -/
def round_to (x : ℚ) (step : Option ℚ) : ℚ :=
  match step with
  | none => x
  | some s => (roundHalfAway (x / s) : ℚ) * s

/-- All quantities computed by the submitted branch
(suppository_calculator.py lines 120-199). required_base_per_unit is the
pre-overage per-unit value from line 150; required_base_batch is the
final post-overage post-rounding batch value from line 158;
exceeds_mold_capacity records the st.error at line 191 (displayed, not
raised); api_volume_exceeds_blank records the st.warning at line 196. -/
structure CalcResult where
  total_api_per_unit : ℚ
  total_api_batch : ℚ
  est_blank_batch : ℚ
  displaced_per_unit : ℚ
  displaced_batch : ℚ
  required_base_per_unit : ℚ
  required_base_batch : ℚ
  required_base_per_unit_out : ℚ
  exceeds_mold_capacity : Bool
  api_volume_exceeds_blank : Bool
  deriving DecidableEq

/-- Assemble the result from the displaced-per-unit value
(suppository_calculator.py lines 121-161 and 189-197). -/
def mkResult (inp : BatchInputs) (dpu : ℚ) : CalcResult :=
  let total_api_per_unit := List.sum (inp.apis.map fun a => a.amt_g)
  let total_api_batch := total_api_per_unit * (inp.N : ℚ)
  let est_blank_batch := inp.blank_unit_weight_g * (inp.N : ℚ)
  let displaced_batch := dpu * (inp.N : ℚ)
  let required_base_per_unit := inp.blank_unit_weight_g - dpu
  let rbb0 := est_blank_batch - displaced_batch
  let rbb1 := if 0 < inp.overage_pct then rbb0 * (1 + inp.overage_pct / 100) else rbb0
  let rbb := round_to rbb1 (stepOf inp.round_step)
  { total_api_per_unit := total_api_per_unit
    total_api_batch := total_api_batch
    est_blank_batch := est_blank_batch
    displaced_per_unit := dpu
    displaced_batch := displaced_batch
    required_base_per_unit := required_base_per_unit
    required_base_batch := rbb
    required_base_per_unit_out := rbb / (inp.N : ℚ)
    exceeds_mold_capacity := decide (required_base_per_unit < 0)
    api_volume_exceeds_blank := decide (inp.blank_unit_weight_g < dpu) }

/-- The calculation performed on submit (suppository_calculator.py lines
120-199): an st.stop on an invalid potency value aborts with the error
message, otherwise all quantities are computed and reported. -/
def calculate (inp : BatchInputs) : Except String CalcResult :=
  match displacedOf inp with
  | Except.error e => Except.error e
  | Except.ok d => Except.ok (mkResult inp d)

/-- The coaching section figures (suppository_calculator.py lines
203-227): wrong displaced base from multiplying by the ratio, the wrong
required base, the absolute difference from est_blank_batch minus
displaced_batch, and the direct-subtraction figure. -/
structure CoachReport where
  wrong_displaced_batch : ℚ
  wrong_required_batch : ℚ
  diff : ℚ
  direct_subtract_required_batch : ℚ
  deriving DecidableEq

/-- Reversed-ratio wrong displacement accumulation
(suppository_calculator.py lines 204-207): amt_g * (rho / base_density),
the documented WRONG formula. -/
def wrong_displaced_per_unit (apis : List APIEntry) (bd : ℚ) : ℚ :=
  List.sum (apis.map fun a => a.amt_g * (a.rho.getD 0 / bd))

/-- The coaching section (suppository_calculator.py lines 201-229): the
mistake figures are computed only in the density-mode branch; the DF-mode
branch shows an informational note and computes nothing. -/
def coach (inp : BatchInputs) (res : CalcResult) : Option CoachReport :=
  match inp.api_mode with
  | ApiMode.density =>
    let wdpu := wrong_displaced_per_unit inp.apis inp.base_density
    let wrong_displaced_batch := wdpu * (inp.N : ℚ)
    let wrong_required_batch := res.est_blank_batch - wrong_displaced_batch
    let diff := rabs (wrong_required_batch - (res.est_blank_batch - res.displaced_batch))
    some { wrong_displaced_batch := wrong_displaced_batch
           wrong_required_batch := wrong_required_batch
           diff := diff
           direct_subtract_required_batch := res.est_blank_batch - res.total_api_batch }
  | ApiMode.df => none

/-- Bool validator matching the density-mode loop's check
(suppository_calculator.py line 134). -/
def rhoValid (a : APIEntry) : Bool :=
  match a.rho with
  | some r => decide (0 < r)
  | none => false

/-- Bool validator matching the DF-mode loop's check
(suppository_calculator.py line 144). -/
def dfValid (a : APIEntry) : Bool :=
  match a.df with
  | some d => decide (0 < d)
  | none => false

/-- Every entry carries a positive potency value for the active mode. -/
def potencyValid (inp : BatchInputs) : Bool :=
  match inp.api_mode with
  | ApiMode.density => inp.apis.all rhoValid
  | ApiMode.df => inp.apis.all dfValid

/-- The Active Ingredients grid loop (suppository_calculator.py lines
81-106): one entry is appended per index in range max_apis; the
number_input widget at line 72 constrains max_apis to 1..6. -/
def buildApis (max_apis : ℕ) (rows : ℕ → APIEntry) : List APIEntry :=
  (List.range max_apis).map rows

end Supp

namespace FiveStep

/-- One API row of the 5-step variant (suppository_calculator_5step.py
line 46): density mode only. -/
structure Api5 where
  name : String
  amt_g : ℚ
  rho : ℚ
  deriving DecidableEq

/-- Unit normalization (suppository_calculator_5step.py line 45):
amt_g = amt_value/1000.0 if unit == "mg" else amt_value. -/
def amt_g_of (amt_value : ℚ) (unit : String) : ℚ :=
  if unit = "mg" then amt_value / 1000 else amt_value

/-- Step 1 (suppository_calculator_5step.py line 51). -/
def total_api_weight (apis : List Api5) (n : ℕ) : ℚ :=
  List.sum (apis.map fun a => a.amt_g) * (n : ℚ)

/-- Step 2 (suppository_calculator_5step.py line 52). -/
def estimated_blank_base (blank_unit_weight_g : ℚ) (n : ℕ) : ℚ :=
  blank_unit_weight_g * (n : ℚ)

/-- Step 4 (suppository_calculator_5step.py line 54):
sum of (m_i / rho_i) * base_density, times N. -/
def base_displaced (apis : List Api5) (base_density : ℚ) (n : ℕ) : ℚ :=
  List.sum (apis.map fun a => a.amt_g / a.rho * base_density) * (n : ℚ)

/-- Step 5 (suppository_calculator_5step.py line 55). -/
def required_base (apis : List Api5) (blank_unit_weight_g base_density : ℚ) (n : ℕ) : ℚ :=
  estimated_blank_base blank_unit_weight_g n - base_displaced apis base_density n

/-- The API grid loop (suppository_calculator_5step.py lines 35-46); the
number_input widget at line 33 constrains max_apis to 1..5. -/
def buildApis (max_apis : ℕ) (rows : ℕ → Api5) : List Api5 :=
  (List.range max_apis).map rows

end FiveStep

namespace Supp

lemma mkResult_total_api_per_unit (inp : BatchInputs) (d : ℚ) :
    (mkResult inp d).total_api_per_unit = List.sum (inp.apis.map fun a => a.amt_g) := rfl

lemma mkResult_total_api_batch (inp : BatchInputs) (d : ℚ) :
    (mkResult inp d).total_api_batch = List.sum (inp.apis.map fun a => a.amt_g) * (inp.N : ℚ) := rfl

lemma mkResult_est_blank_batch (inp : BatchInputs) (d : ℚ) :
    (mkResult inp d).est_blank_batch = inp.blank_unit_weight_g * (inp.N : ℚ) := rfl

lemma mkResult_displaced_per_unit (inp : BatchInputs) (d : ℚ) :
    (mkResult inp d).displaced_per_unit = d := rfl

lemma mkResult_displaced_batch (inp : BatchInputs) (d : ℚ) :
    (mkResult inp d).displaced_batch = d * (inp.N : ℚ) := rfl

lemma mkResult_required_base_per_unit (inp : BatchInputs) (d : ℚ) :
    (mkResult inp d).required_base_per_unit = inp.blank_unit_weight_g - d := rfl

lemma mkResult_required_base_batch (inp : BatchInputs) (d : ℚ) :
    (mkResult inp d).required_base_batch =
      round_to
        (if 0 < inp.overage_pct then
          (inp.blank_unit_weight_g * (inp.N : ℚ) - d * (inp.N : ℚ)) * (1 + inp.overage_pct / 100)
        else inp.blank_unit_weight_g * (inp.N : ℚ) - d * (inp.N : ℚ))
        (stepOf inp.round_step) := rfl

lemma mkResult_required_base_per_unit_out (inp : BatchInputs) (d : ℚ) :
    (mkResult inp d).required_base_per_unit_out =
      (mkResult inp d).required_base_batch / (inp.N : ℚ) := rfl

lemma mkResult_exceeds_mold_capacity (inp : BatchInputs) (d : ℚ) :
    (mkResult inp d).exceeds_mold_capacity = decide (inp.blank_unit_weight_g - d < 0) := rfl

lemma displacedDensityAux_ok (bd : ℚ) :
    ∀ apis : List APIEntry, apis.all rhoValid = true →
      displacedDensityAux apis bd =
        Except.ok (List.sum (apis.map fun a => a.amt_g * bd / a.rho.getD 0)) := by
  intro apis
  induction apis with
  | nil => intro _; simp [displacedDensityAux]
  | cons a rest ih =>
    intro h
    rw [List.all_cons, Bool.and_eq_true] at h
    obtain ⟨ha, hrest⟩ := h
    rcases hx : a.rho with _ | r
    · simp [rhoValid, hx] at ha
    · simp only [rhoValid, hx, decide_eq_true_eq] at ha
      simp only [displacedDensityAux, hx, if_neg (not_le.mpr ha), ih hrest,
        List.map_cons, List.sum_cons, Option.getD_some]
      rw [div_div_eq_mul_div]

lemma displacedDFAux_ok :
    ∀ apis : List APIEntry, apis.all dfValid = true →
      displacedDFAux apis =
        Except.ok (List.sum (apis.map fun a => a.amt_g / a.df.getD 0)) := by
  intro apis
  induction apis with
  | nil => intro _; simp [displacedDFAux]
  | cons a rest ih =>
    intro h
    rw [List.all_cons, Bool.and_eq_true] at h
    obtain ⟨ha, hrest⟩ := h
    rcases hx : a.df with _ | d
    · simp [dfValid, hx] at ha
    · simp only [dfValid, hx, decide_eq_true_eq] at ha
      simp only [displacedDFAux, hx, if_neg (not_le.mpr ha), ih hrest,
        List.map_cons, List.sum_cons, Option.getD_some]

lemma calculate_of_displaced (inp : BatchInputs) (d : ℚ)
    (h : displacedOf inp = Except.ok d) :
    calculate inp = Except.ok (mkResult inp d) := by
  rw [calculate, h]

lemma calculate_inv (inp : BatchInputs) (res : CalcResult)
    (h : calculate inp = Except.ok res) :
    ∃ d, displacedOf inp = Except.ok d ∧ res = mkResult inp d := by
  cases hd : displacedOf inp with
  | error e => rw [calculate, hd] at h; exact absurd h (by simp)
  | ok d =>
    rw [calculate, hd, Except.ok.injEq] at h
    exact ⟨d, rfl, h.symm⟩

lemma displacedOf_ok_of_valid (inp : BatchInputs) (h : potencyValid inp = true) :
    ∃ d, displacedOf inp = Except.ok d := by
  cases hm : inp.api_mode with
  | density =>
    rw [potencyValid, hm] at h
    exact ⟨_, by rw [displacedOf, hm, displacedDensityAux_ok inp.base_density inp.apis h]⟩
  | df =>
    rw [potencyValid, hm] at h
    exact ⟨_, by rw [displacedOf, hm, displacedDFAux_ok inp.apis h]⟩

end Supp

namespace Supp

lemma rabs_le_of (x b : ℚ) (h1 : -b ≤ x) (h2 : x ≤ b) : rabs x ≤ b := by
  rw [rabs]; split <;> linarith

lemma rabs_mul_pos (y s : ℚ) (hs : 0 < s) : rabs (y * s) = rabs y * s := by
  rw [rabs, rabs]
  by_cases hy : y < 0
  · rw [if_pos (mul_neg_of_neg_of_pos hy hs), if_pos hy]; ring
  · push_neg at hy
    rw [if_neg (not_lt.mpr (mul_nonneg hy hs.le)), if_neg (not_lt.mpr hy)]

lemma roundHalfAway_close (q : ℚ) : rabs (q - (roundHalfAway q : ℚ)) ≤ 1/2 := by
  rw [roundHalfAway]
  by_cases hq : 0 ≤ q
  · rw [if_pos hq]
    have h1 : ((⌊q + 1/2⌋ : ℤ) : ℚ) ≤ q + 1/2 := Int.floor_le _
    have h2 : q + 1/2 < (⌊q + 1/2⌋ : ℤ) + 1 := Int.lt_floor_add_one _
    exact rabs_le_of _ _ (by linarith) (by linarith)
  · rw [if_neg hq]
    have h1 : q - 1/2 ≤ ((⌈q - 1/2⌉ : ℤ) : ℚ) := Int.le_ceil _
    have h2 : ((⌈q - 1/2⌉ : ℤ) : ℚ) < q - 1/2 + 1 := Int.ceil_lt_add_one _
    exact rabs_le_of _ _ (by linarith) (by linarith)

lemma round_to_close (x s : ℚ) (hs : 0 < s) :
    (∃ k : ℤ, round_to x (some s) = (k : ℚ) * s) ∧
    rabs (x - round_to x (some s)) ≤ s / 2 := by
  refine ⟨⟨roundHalfAway (x / s), rfl⟩, ?_⟩
  rw [round_to]
  have hx : x - (roundHalfAway (x / s) : ℚ) * s
      = (x / s - (roundHalfAway (x / s) : ℚ)) * s := by
    rw [sub_mul, div_mul_cancel₀ _ (ne_of_gt hs)]
  rw [hx, rabs_mul_pos _ _ hs]
  have h := roundHalfAway_close (x / s)
  calc rabs (x / s - (roundHalfAway (x / s) : ℚ)) * s ≤ (1/2) * s :=
        mul_le_mul_of_nonneg_right h hs.le
    _ = s / 2 := by ring

end Supp

/-- C8: for every component amount and unit tag, the normalizer of either
variant produces amount/1000 grams when the unit is mg and the amount
unchanged when the unit is g. -/
theorem C8_unit_normalization (amt : ℚ) :
    Supp.amt_g_of amt "mg" = amt / 1000 ∧ Supp.amt_g_of amt "g" = amt ∧
    FiveStep.amt_g_of amt "mg" = amt / 1000 ∧ FiveStep.amt_g_of amt "g" = amt := by
  refine ⟨rfl, ?_, rfl, ?_⟩
  · rw [Supp.amt_g_of, if_neg (by decide)]
  · rw [FiveStep.amt_g_of, if_neg (by decide)]

/-- C10: the Active Ingredients loop of each variant builds exactly one
component row per index below the widget-constrained count, so every
calculation runs over a component list of length between 1 and the cap
(6 in the enhanced variant, 5 in the 5-step variant). -/
theorem C10_component_count_bounds (m m5 : ℕ) (rows : ℕ → Supp.APIEntry)
    (rows5 : ℕ → FiveStep.Api5)
    (h1 : 1 ≤ m) (h6 : m ≤ 6) (h15 : 1 ≤ m5) (h55 : m5 ≤ 5) :
    (Supp.buildApis m rows).length = m ∧
    1 ≤ (Supp.buildApis m rows).length ∧ (Supp.buildApis m rows).length ≤ 6 ∧
    (FiveStep.buildApis m5 rows5).length = m5 ∧
    1 ≤ (FiveStep.buildApis m5 rows5).length ∧ (FiveStep.buildApis m5 rows5).length ≤ 5 := by
  have hm : (Supp.buildApis m rows).length = m := by
    rw [Supp.buildApis, List.length_map, List.length_range]
  have hm5 : (FiveStep.buildApis m5 rows5).length = m5 := by
    rw [FiveStep.buildApis, List.length_map, List.length_range]
  refine ⟨hm, ?_, ?_, hm5, ?_, ?_⟩ <;> omega

/-- C10 witness: with one row requested in each variant the built lists
have length 1, within bounds. -/
theorem C10_witness :
    (Supp.buildApis 1 fun _ => { name := "API 1", amt_g := 0, rho := some 1, df := none }).length = 1 ∧
    1 ≤ (Supp.buildApis 1 fun _ => { name := "API 1", amt_g := 0, rho := some 1, df := none }).length ∧
    (Supp.buildApis 1 fun _ => { name := "API 1", amt_g := 0, rho := some 1, df := none }).length ≤ 6 ∧
    (FiveStep.buildApis 1 fun _ => { name := "API 1", amt_g := 0, rho := 1 }).length = 1 ∧
    1 ≤ (FiveStep.buildApis 1 fun _ => { name := "API 1", amt_g := 0, rho := 1 }).length ∧
    (FiveStep.buildApis 1 fun _ => { name := "API 1", amt_g := 0, rho := 1 }).length ≤ 5 :=
  C10_component_count_bounds 1 1
    (fun _ => { name := "API 1", amt_g := 0, rho := some 1, df := none })
    (fun _ => { name := "API 1", amt_g := 0, rho := 1 })
    (by decide) (by decide) (by decide) (by decide)

/-- C7: displacement-factor mode with DF set to the density ratio of a
component produces exactly the same displaced-base computation as density
mode with the underlying densities. -/
theorem C7_df_density_equivalence (nm : String) (m ρa ρb : ℚ)
    (ha : 0 < ρa) (hb : 0 < ρb) :
    Supp.displacedDFAux [{ name := nm, amt_g := m, rho := none, df := some (ρa / ρb) }] =
    Supp.displacedDensityAux [{ name := nm, amt_g := m, rho := some ρa, df := none }] ρb := by
  simp only [Supp.displacedDFAux, Supp.displacedDensityAux,
    if_neg (not_le.mpr (div_pos ha hb)), if_neg (not_le.mpr ha)]

/-- C7 witness: a concrete component with amount 1 g, density 2 g/mL
against base density 1 g/mL matches across modes. -/
theorem C7_witness :
    Supp.displacedDFAux [{ name := "X", amt_g := 1, rho := none, df := some ((2 : ℚ) / 1) }] =
    Supp.displacedDensityAux [{ name := "X", amt_g := 1, rho := some 2, df := none }] 1 :=
  C7_df_density_equivalence "X" 1 2 1 (by norm_num) (by norm_num)

/-- C6: for a single component of positive amount with positive densities,
the reversed-ratio mistake value, amount times ratio, equals the correct
displaced value, amount divided by ratio, exactly when the density ratio
is 1. -/
theorem C6_reversed_ratio_iff (nm : String) (m ρa ρb : ℚ)
    (hm : 0 < m) (ha : 0 < ρa) (hb : 0 < ρb) :
    Supp.displacedDensityAux [{ name := nm, amt_g := m, rho := some ρa, df := none }] ρb =
      Except.ok (m / (ρa / ρb)) ∧
    (Supp.wrong_displaced_per_unit
        [{ name := nm, amt_g := m, rho := some ρa, df := none }] ρb = m / (ρa / ρb) ↔
      ρa / ρb = 1) := by
  have ht : 0 < ρa / ρb := div_pos ha hb
  constructor
  · simp only [Supp.displacedDensityAux, if_neg (not_le.mpr ha), add_zero]
  · rw [Supp.wrong_displaced_per_unit]
    simp only [List.map_cons, List.map_nil, List.sum_cons, List.sum_nil, add_zero,
      Option.getD_some]
    constructor
    · intro h
      have h2 : m * (ρa / ρb) = m * (ρa / ρb)⁻¹ := by rw [h, div_eq_mul_inv]
      have h3 : ρa / ρb = (ρa / ρb)⁻¹ := mul_left_cancel₀ (ne_of_gt hm) h2
      have h4 : (ρa / ρb) * (ρa / ρb) = 1 := by
        calc (ρa / ρb) * (ρa / ρb) = (ρa / ρb) * (ρa / ρb)⁻¹ := by rw [← h3]
          _ = 1 := mul_inv_cancel₀ (ne_of_gt ht)
      rcases mul_self_eq_one_iff.mp h4 with h5 | h5
      · exact h5
      · linarith [ht]
    · intro h
      rw [h, mul_one, div_one]

/-- C6 witness: a concrete component with amount 1 g and densities 2 and 1
gives ratio 2, and the mistaken value differs from the correct one. -/
theorem C6_witness :
    Supp.displacedDensityAux [{ name := "X", amt_g := 1, rho := some 2, df := none }] 1 =
      Except.ok (1 / ((2 : ℚ) / 1)) ∧
    (Supp.wrong_displaced_per_unit
        [{ name := "X", amt_g := 1, rho := some 2, df := none }] 1 = 1 / ((2 : ℚ) / 1) ↔
      (2 : ℚ) / 1 = 1) :=
  C6_reversed_ratio_iff "X" 1 2 1 (by norm_num) (by norm_num) (by norm_num)

/-- C1: in density mode, on validated inputs the calculator's per-unit
displaced base is the sum over components of amount times base density
divided by component density, the batch displaced base is that sum times
N, and for a single component the 5-step variant gives displaced
m times ρb over ρa and required B·N minus displaced·N. -/
theorem C1_density_displacement (inp : Supp.BatchInputs) (res : Supp.CalcResult)
    (nm : String) (m ρa ρb B : ℚ) (n : ℕ)
    (hmode : inp.api_mode = Supp.ApiMode.density)
    (hvalid : inp.apis.all Supp.rhoValid = true)
    (hcalc : Supp.calculate inp = Except.ok res)
    (ha : 0 < ρa) (hb : 0 < ρb) :
    res.displaced_per_unit =
      List.sum (inp.apis.map fun a => a.amt_g * inp.base_density / a.rho.getD 0) ∧
    res.displaced_batch =
      List.sum (inp.apis.map fun a => a.amt_g * inp.base_density / a.rho.getD 0) * (inp.N : ℚ) ∧
    FiveStep.base_displaced [{ name := nm, amt_g := m, rho := ρa }] ρb n
      = m * ρb / ρa * (n : ℚ) ∧
    FiveStep.required_base [{ name := nm, amt_g := m, rho := ρa }] B ρb n
      = B * (n : ℚ) - m * ρb / ρa * (n : ℚ) := by
  obtain ⟨d, hd, hres⟩ := Supp.calculate_inv inp res hcalc
  simp only [Supp.displacedOf, hmode] at hd
  rw [Supp.displacedDensityAux_ok inp.base_density inp.apis hvalid, Except.ok.injEq] at hd
  subst hres
  refine ⟨?_, ?_, ?_, ?_⟩
  · rw [Supp.mkResult_displaced_per_unit, ← hd]
  · rw [Supp.mkResult_displaced_batch, ← hd]
  · simp only [FiveStep.base_displaced, List.map_cons, List.map_nil, List.sum_cons,
      List.sum_nil, add_zero]
    ring
  · simp only [FiveStep.required_base, FiveStep.estimated_blank_base, FiveStep.base_displaced,
      List.map_cons, List.map_nil, List.sum_cons, List.sum_nil, add_zero]
    ring

/-- Concrete density-mode batch: two components, base density 2, N = 10. -/
def inC1 : Supp.BatchInputs :=
  { N := 10, blank_unit_weight_g := 2, base_density := 2,
    api_mode := Supp.ApiMode.density,
    apis := [{ name := "A", amt_g := 1, rho := some 2, df := none },
             { name := "B", amt_g := 3, rho := some 4, df := none }],
    overage_pct := 0, round_step := "none" }

/-- C1 witness: the two-component batch inC1 displaces 5/2 g per unit and
the single-component 5-step figures match the closed forms. -/
theorem C1_witness :
    (Supp.mkResult inC1 (5/2)).displaced_per_unit =
      List.sum (inC1.apis.map fun a => a.amt_g * inC1.base_density / a.rho.getD 0) ∧
    (Supp.mkResult inC1 (5/2)).displaced_batch =
      List.sum (inC1.apis.map fun a => a.amt_g * inC1.base_density / a.rho.getD 0) * (inC1.N : ℚ) ∧
    FiveStep.base_displaced [{ name := "A", amt_g := 1, rho := 2 }] 1 10
      = 1 * 1 / 2 * ((10 : ℕ) : ℚ) ∧
    FiveStep.required_base [{ name := "A", amt_g := 1, rho := 2 }] 2 1 10
      = 2 * ((10 : ℕ) : ℚ) - 1 * 1 / 2 * ((10 : ℕ) : ℚ) :=
  C1_density_displacement inC1 (Supp.mkResult inC1 (5/2)) "A" 1 2 1 2 10 rfl (by decide)
    (by apply Supp.calculate_of_displaced
        simp [Supp.displacedOf, Supp.displacedDensityAux, inC1]
        norm_num)
    (by norm_num) (by norm_num)

/-- C2: the final batch required base is the blank estimate minus the
displaced batch, times one plus the overage fraction when the overage is
positive, then rounded to the configured step; the reported per-unit
value is the post-rounding batch value divided by N; with a positive
step the final value is a multiple of the step within half a step of the
unrounded value. -/
theorem C2_required_base_pipeline (inp : Supp.BatchInputs) (res : Supp.CalcResult)
    (hcalc : Supp.calculate inp = Except.ok res) :
    res.required_base_batch =
      Supp.round_to
        ((res.est_blank_batch - res.displaced_batch) *
          (if 0 < inp.overage_pct then 1 + inp.overage_pct / 100 else 1))
        (Supp.stepOf inp.round_step) ∧
    res.required_base_per_unit_out = res.required_base_batch / (inp.N : ℚ) ∧
    ∀ s : ℚ, Supp.stepOf inp.round_step = some s → 0 < s →
      (∃ k : ℤ, res.required_base_batch = (k : ℚ) * s) ∧
      Supp.rabs ((res.est_blank_batch - res.displaced_batch) *
          (if 0 < inp.overage_pct then 1 + inp.overage_pct / 100 else 1) -
        res.required_base_batch) ≤ s / 2 := by
  obtain ⟨d, hd, hres⟩ := Supp.calculate_inv inp res hcalc
  subst hres
  have harg :
      (if 0 < inp.overage_pct then
        (inp.blank_unit_weight_g * (inp.N : ℚ) - d * (inp.N : ℚ)) * (1 + inp.overage_pct / 100)
      else inp.blank_unit_weight_g * (inp.N : ℚ) - d * (inp.N : ℚ)) =
      ((Supp.mkResult inp d).est_blank_batch - (Supp.mkResult inp d).displaced_batch) *
        (if 0 < inp.overage_pct then 1 + inp.overage_pct / 100 else 1) := by
    rw [Supp.mkResult_est_blank_batch, Supp.mkResult_displaced_batch]
    split_ifs with h
    · rfl
    · rw [mul_one]
  refine ⟨?_, Supp.mkResult_required_base_per_unit_out inp d, ?_⟩
  · rw [Supp.mkResult_required_base_batch, harg]
  · intro s hs hspos
    rw [Supp.mkResult_required_base_batch, ← harg, hs]
    exact Supp.round_to_close _ s hspos

/-- Concrete density-mode batch with a 5 percent overage and a 0.01 g
rounding step. -/
def inC2 : Supp.BatchInputs :=
  { N := 1, blank_unit_weight_g := 2, base_density := 1,
    api_mode := Supp.ApiMode.density,
    apis := [{ name := "X", amt_g := 1/5, rho := some 3, df := none }],
    overage_pct := 5, round_step := "0.01 g" }

/-- C2 witness: the pipeline equalities and the nearest-multiple bounds
hold for inC2 with its displaced value 1/15 and step 1/100. -/
theorem C2_witness :
    (Supp.mkResult inC2 (1/15)).required_base_batch =
      Supp.round_to
        (((Supp.mkResult inC2 (1/15)).est_blank_batch -
            (Supp.mkResult inC2 (1/15)).displaced_batch) *
          (if 0 < inC2.overage_pct then 1 + inC2.overage_pct / 100 else 1))
        (Supp.stepOf inC2.round_step) ∧
    (Supp.mkResult inC2 (1/15)).required_base_per_unit_out =
      (Supp.mkResult inC2 (1/15)).required_base_batch / (inC2.N : ℚ) ∧
    (∃ k : ℤ, (Supp.mkResult inC2 (1/15)).required_base_batch = (k : ℚ) * (1/100)) ∧
    Supp.rabs (((Supp.mkResult inC2 (1/15)).est_blank_batch -
        (Supp.mkResult inC2 (1/15)).displaced_batch) *
        (if 0 < inC2.overage_pct then 1 + inC2.overage_pct / 100 else 1) -
      (Supp.mkResult inC2 (1/15)).required_base_batch) ≤ (1/100) / 2 := by
  have h := C2_required_base_pipeline inC2 (Supp.mkResult inC2 (1/15))
    (by apply Supp.calculate_of_displaced
        simp [Supp.displacedOf, Supp.displacedDensityAux, inC2]
        norm_num)
  have h3 := h.2.2 (1/100) rfl (by norm_num)
  exact ⟨h.1, h.2.1, h3.1, h3.2⟩

/-- C3: on validated inputs the calculation always returns a result, a
negative required base included, and the exceeds-mold-capacity flag is
set exactly when the pre-overage per-unit required base, blank weight
minus per-unit displaced base, is strictly negative. -/
theorem C3_negative_required_reported (inp : Supp.BatchInputs)
    (hvalid : Supp.potencyValid inp = true) :
    (∃ res, Supp.calculate inp = Except.ok res) ∧
    ∀ res, Supp.calculate inp = Except.ok res →
      ((res.exceeds_mold_capacity = true ↔ res.required_base_per_unit < 0) ∧
        res.required_base_per_unit = inp.blank_unit_weight_g - res.displaced_per_unit) := by
  obtain ⟨d, hd⟩ := Supp.displacedOf_ok_of_valid inp hvalid
  refine ⟨⟨Supp.mkResult inp d, Supp.calculate_of_displaced inp d hd⟩, ?_⟩
  intro res hres
  obtain ⟨d2, hd2, hres2⟩ := Supp.calculate_inv inp res hres
  subst hres2
  constructor
  · rw [Supp.mkResult_exceeds_mold_capacity, Supp.mkResult_required_base_per_unit]
    exact decide_eq_true_iff
  · rw [Supp.mkResult_required_base_per_unit, Supp.mkResult_displaced_per_unit]

/-- Concrete overloaded mold: 3 g of API of density 1 in a 1 g blank, so
the required base is negative. -/
def inC3 : Supp.BatchInputs :=
  { N := 1, blank_unit_weight_g := 1, base_density := 1,
    api_mode := Supp.ApiMode.density,
    apis := [{ name := "X", amt_g := 3, rho := some 1, df := none }],
    overage_pct := 0, round_step := "none" }

/-- C3 witness: the overloaded batch inC3 still yields a result and its
capacity flag matches the sign of the pre-overage per-unit base. -/
theorem C3_witness :
    (∃ res, Supp.calculate inC3 = Except.ok res) ∧
    ∀ res, Supp.calculate inC3 = Except.ok res →
      ((res.exceeds_mold_capacity = true ↔ res.required_base_per_unit < 0) ∧
        res.required_base_per_unit = inC3.blank_unit_weight_g - res.displaced_per_unit) :=
  C3_negative_required_reported inC3 (by decide)

/-- Concrete DF-mode batch used to show the coaching section computes no
mistake figures outside density mode. -/
def inC4 : Supp.BatchInputs :=
  { N := 1, blank_unit_weight_g := 2, base_density := 1,
    api_mode := Supp.ApiMode.df,
    apis := [{ name := "X", amt_g := 1, rho := none, df := some 2 }],
    overage_pct := 0, round_step := "none" }

/-- C4 counterexample: for the DF-mode batch inC4 the calculation
succeeds, yet the coaching section produces no report at all, so the
direct-subtraction mistake figure is not computed in DF mode. -/
theorem C4_counterexample :
    inC4.api_mode = Supp.ApiMode.df ∧
    Supp.calculate inC4 = Except.ok (Supp.mkResult inC4 (1/2)) ∧
    Supp.coach inC4 (Supp.mkResult inC4 (1/2)) = none := by
  refine ⟨rfl, ?_, rfl⟩
  apply Supp.calculate_of_displaced
  simp [Supp.displacedOf, Supp.displacedDFAux, inC4]

/-- C4 amended: the coaching simulator computes and reports the
direct-subtraction mistake figure, the blank-base estimate minus the
total API batch weight, only in density mode; in DF mode it produces no
mistake figures. -/
theorem C4_direct_subtraction_density_only
    (inp inp2 : Supp.BatchInputs) (res res2 : Supp.CalcResult)
    (hmode : inp.api_mode = Supp.ApiMode.density)
    (hmode2 : inp2.api_mode = Supp.ApiMode.df) :
    (∃ c, Supp.coach inp res = some c) ∧
    (∀ c, Supp.coach inp res = some c →
      c.direct_subtract_required_batch = res.est_blank_batch - res.total_api_batch) ∧
    Supp.coach inp2 res2 = none := by
  refine ⟨?_, ?_, ?_⟩
  · simp only [Supp.coach, hmode]
    exact ⟨_, rfl⟩
  · intro c hc
    simp only [Supp.coach, hmode, Option.some.injEq] at hc
    rw [← hc]
  · simp only [Supp.coach, hmode2]

/-- Concrete density-mode batch for the C4 amended witness. -/
def inC4d : Supp.BatchInputs :=
  { N := 1, blank_unit_weight_g := 2, base_density := 1,
    api_mode := Supp.ApiMode.density,
    apis := [{ name := "X", amt_g := 1, rho := some 2, df := none }],
    overage_pct := 0, round_step := "none" }

/-- C4 witness: at the density-mode batch inC4d the coaching report
exists and carries the direct-subtraction figure, while at the DF-mode
batch inC4 it is absent. -/
theorem C4_witness :
    (∃ c, Supp.coach inC4d (Supp.mkResult inC4d (1/2)) = some c) ∧
    (∀ c, Supp.coach inC4d (Supp.mkResult inC4d (1/2)) = some c →
      c.direct_subtract_required_batch =
        (Supp.mkResult inC4d (1/2)).est_blank_batch -
          (Supp.mkResult inC4d (1/2)).total_api_batch) ∧
    Supp.coach inC4 (Supp.mkResult inC4 (1/2)) = none :=
  C4_direct_subtraction_density_only inC4d inC4
    (Supp.mkResult inC4d (1/2)) (Supp.mkResult inC4 (1/2)) rfl rfl

/-- Concrete density-mode batch with a 10 percent overage, on which the
reported coaching delta and the distance to the final required base
disagree. -/
def inC5 : Supp.BatchInputs :=
  { N := 1, blank_unit_weight_g := 2, base_density := 1,
    api_mode := Supp.ApiMode.density,
    apis := [{ name := "X", amt_g := 1/5, rho := some 2, df := none }],
    overage_pct := 10, round_step := "none" }

/-- The coaching report the code produces at inC5. -/
def repC5 : Supp.CoachReport :=
  { wrong_displaced_batch := 2/5, wrong_required_batch := 8/5,
    diff := 3/10, direct_subtract_required_batch := 9/5 }

/-- C5 counterexample: at inC5 the coaching delta is 3/10, the absolute
difference from the pre-overage value, while the distance to the final
post-overage required base 209/100 is 49/100, so the delta is not taken
from the final required base. -/
theorem C5_counterexample :
    Supp.calculate inC5 = Except.ok (Supp.mkResult inC5 (1/10)) ∧
    Supp.coach inC5 (Supp.mkResult inC5 (1/10)) = some repC5 ∧
    repC5.diff = 3/10 ∧
    (Supp.mkResult inC5 (1/10)).required_base_batch = 209/100 ∧
    Supp.rabs (repC5.wrong_required_batch -
      (Supp.mkResult inC5 (1/10)).required_base_batch) = 49/100 ∧
    repC5.diff ≠ Supp.rabs (repC5.wrong_required_batch -
      (Supp.mkResult inC5 (1/10)).required_base_batch) := by
  have hstep : Supp.stepOf inC5.round_step = none := rfl
  have hrt : ∀ x : ℚ, Supp.round_to x none = x := fun _ => rfl
  have hov : (0 : ℚ) < inC5.overage_pct := by norm_num [inC5]
  have hbatch : (Supp.mkResult inC5 (1/10)).required_base_batch = 209/100 := by
    rw [Supp.mkResult_required_base_batch, hstep, hrt, if_pos hov]
    norm_num [inC5]
  refine ⟨?_, ?_, rfl, hbatch, ?_, ?_⟩
  · apply Supp.calculate_of_displaced
    simp [Supp.displacedOf, Supp.displacedDensityAux, inC5]
    norm_num
  · norm_num [Supp.coach, Supp.wrong_displaced_per_unit, Supp.rabs, repC5, inC5,
      Supp.mkResult_est_blank_batch, Supp.mkResult_displaced_batch,
      Supp.mkResult_total_api_batch]
  · rw [hbatch]
    show Supp.rabs ((8 : ℚ)/5 - 209/100) = 49/100
    rw [Supp.rabs, if_pos (by norm_num)]
    norm_num
  · rw [hbatch]
    show (3 : ℚ)/10 ≠ Supp.rabs ((8 : ℚ)/5 - 209/100)
    rw [Supp.rabs, if_pos (by norm_num)]
    norm_num

/-- C5 amended: in density mode the coaching delta equals the absolute
difference between the wrong required base and the pre-overage,
pre-rounding correct required base, the blank estimate minus the
displaced batch; it is not measured against the post-overage,
post-rounding final value. -/
theorem C5_diff_pre_overage (inp : Supp.BatchInputs) (res : Supp.CalcResult)
    (hmode : inp.api_mode = Supp.ApiMode.density)
    (hcalc : Supp.calculate inp = Except.ok res) :
    ∀ c, Supp.coach inp res = some c →
      c.diff = Supp.rabs (c.wrong_required_batch -
        (res.est_blank_batch - res.displaced_batch)) := by
  intro c hc
  simp only [Supp.coach, hmode, Option.some.injEq] at hc
  rw [← hc]

/-- C5 witness: the amended delta property evaluated on the concrete
batch inC5 and its concrete coaching report repC5. -/
theorem C5_witness :
    repC5.diff = Supp.rabs (repC5.wrong_required_batch -
      ((Supp.mkResult inC5 (1/10)).est_blank_batch -
        (Supp.mkResult inC5 (1/10)).displaced_batch)) :=
  C5_diff_pre_overage inC5 (Supp.mkResult inC5 (1/10)) rfl
    (by apply Supp.calculate_of_displaced
        simp [Supp.displacedOf, Supp.displacedDensityAux, inC5]
        norm_num)
    repC5
    (by norm_num [Supp.coach, Supp.wrong_displaced_per_unit, Supp.rabs, repC5, inC5,
          Supp.mkResult_est_blank_batch, Supp.mkResult_displaced_batch,
          Supp.mkResult_total_api_batch])

namespace Supp

/-- The radio labels for the two modes (suppository_calculator.py lines
63-66), as interpolated into the export's Mode line. -/
def modeLabel : ApiMode → String
  | ApiMode.density => "Density (ρ)"
  | ApiMode.df => "Displacement Factor (DF)"

/-- One export line per component (suppository_calculator.py lines
245-249). -/
def apiLine (mode : ApiMode) (a : APIEntry) : String :=
  match mode with
  | ApiMode.density =>
    a.name ++ (" amount per unit (g),") ++ toString a.amt_g ++ (",rho,") ++
      toString (a.rho.getD 0)
  | ApiMode.df =>
    a.name ++ (" amount per unit (g),") ++ toString a.amt_g ++ (",DF,") ++
      toString (a.df.getD 0)

/-- The Python local variables bound only inside the submitted branch
(suppository_calculator.py lines 122-161); none means the name is unbound
in the current branch, as in the not-submitted branch where the export
block actually sits. -/
structure ComputedVars where
  total_api_per_unit : Option ℚ
  total_api_batch : Option ℚ
  est_blank_batch : Option ℚ
  displaced_per_unit : Option ℚ
  displaced_batch : Option ℚ
  required_base_batch : Option ℚ
  required_base_per_unit_out : Option ℚ
  deriving DecidableEq

/-- The export block (suppository_calculator.py lines 237-261): its first
five lines and the per-component lines read only form-bound values, but
the tail starting at line 251 reads the seven names bound only in the
submitted branch; reading an unbound name raises NameError, modelled as
an error naming the first such variable in source order. -/
def buildExport (inp : BatchInputs) (cv : ComputedVars) : Except String (List String) :=
  let head := ["Suppository Base Calculator — 5-Step",
    ("N,") ++ toString inp.N,
    ("Blank per unit (g),") ++ toString inp.blank_unit_weight_g,
    ("Base density (g/mL),") ++ toString inp.base_density,
    ("Mode,") ++ modeLabel inp.api_mode]
  let apiLines := inp.apis.map (apiLine inp.api_mode)
  match cv.total_api_per_unit with
  | none => Except.error ("NameError: name total_api_per_unit is not defined")
  | some tapu =>
  match cv.total_api_batch with
  | none => Except.error ("NameError: name total_api_batch is not defined")
  | some tab =>
  match cv.est_blank_batch with
  | none => Except.error ("NameError: name est_blank_batch is not defined")
  | some ebb =>
  match cv.displaced_per_unit with
  | none => Except.error ("NameError: name displaced_per_unit is not defined")
  | some dpu =>
  match cv.displaced_batch with
  | none => Except.error ("NameError: name displaced_batch is not defined")
  | some db =>
  match cv.required_base_batch with
  | none => Except.error ("NameError: name required_base_batch is not defined")
  | some rbb =>
  match cv.required_base_per_unit_out with
  | none => Except.error ("NameError: name required_base_per_unit_out is not defined")
  | some rbpu =>
    Except.ok (head ++ apiLines ++
      [("Total API per unit (g),") ++ toString tapu,
       ("Total API batch (g),") ++ toString tab,
       ("Estimated blank batch (g),") ++ toString ebb,
       ("Displaced base per unit (g),") ++ toString dpu,
       ("Displaced base batch (g),") ++ toString db,
       ("Required base batch (g) (after overage, rounded),") ++ toString rbb,
       ("Required base per unit (g) (from rounded batch),") ++ toString rbpu,
       ("Overage (%),") ++ toString inp.overage_pct,
       ("Rounding step,") ++ inp.round_step])

/-- No computed variable is bound outside the submitted branch. -/
def noneVars : ComputedVars :=
  { total_api_per_unit := none, total_api_batch := none, est_blank_batch := none,
    displaced_per_unit := none, displaced_batch := none, required_base_batch := none,
    required_base_per_unit_out := none }

/-- The module-level control flow around the export
(suppository_calculator.py lines 120, 231 and 234-262): on submit the
results are computed and displayed but the export block is in the other
branch and never runs, so no export text is produced; without a submit
the export block runs with none of the computed variables bound. The
returned option is the export text produced by the page run. -/
def runPage (inp : BatchInputs) (submitted : Bool) : Except String (Option (List String)) :=
  if submitted then
    match calculate inp with
    | Except.error e => Except.error e
    | Except.ok _ => Except.ok none
  else
    match buildExport inp noneVars with
    | Except.error e => Except.error e
    | Except.ok ls => Except.ok (some ls)

end Supp

/-- Concrete default-like batch for exercising the page flow around the
export block. -/
def inC9 : Supp.BatchInputs :=
  { N := 12, blank_unit_weight_g := 2, base_density := 1,
    api_mode := Supp.ApiMode.density,
    apis := [{ name := "API 1", amt_g := 1, rho := some 3, df := none }],
    overage_pct := 0, round_step := "none" }

/-- C9: a completed calculation produces no export text at all, because
the export block sits in the not-submitted branch; and in that branch it
stops at a NameError on the first computed quantity it interpolates, so
no run of the page ever yields the documented export. -/
theorem C9_export_unreachable :
    Supp.runPage inC9 true = Except.ok none ∧
    Supp.runPage inC9 false =
      Except.error ("NameError: name total_api_per_unit is not defined") := by
  constructor
  · have hc : Supp.calculate inC9 = Except.ok (Supp.mkResult inC9 (1/3)) := by
      apply Supp.calculate_of_displaced
      simp [Supp.displacedOf, Supp.displacedDensityAux, inC9]
    rw [Supp.runPage, if_pos rfl, hc]
  · rfl
